import Mathlib

set_option maxRecDepth 100000

/-!
Verification development for the mica-frontend generation-state engine.

The embedding models, from the TypeScript sources:
  - src/lib/generation-transformers.ts   (sanitizeEventData, transformNodes,
    transformConnections, transformDatabaseInfo, updateNodeConfiguration,
    updateNodeStatus, parseNodeString, extractConnectionsFromNodes,
    transformArchitecturePlannerNodes, transformMockNodes)
  - src/hooks/use-generation-state.ts    (createInitialState, handleSSEMessage,
    reset, setMockNodes)
  - src/components/generation-canvas.tsx (flowNodes selection, node-count
    effect, processConnections reveal loop)

JavaScript dynamic values are modelled by the JSON-like type JVal; wall-clock
reads of Date.now() are threaded through as an explicit Nat parameter; code
paths where the TypeScript would throw a TypeError are modelled by Option
(none = crash).  String scanning mirrors the concrete regular expressions of
the source, specialised to their deterministic matching behaviour (all the
character classes involved are disjoint from their terminators, so the greedy
scan below coincides with the backtracking regex engine on every input).
-/

/-- JSON-like runtime value, modelling untyped JavaScript payload data. -/
inductive JVal where
  | nullv
  | boolv (b : Bool)
  | numv (n : Int)
  | strv (s : String)
  | arrv (xs : List JVal)
  | objv (fields : List (String × JVal))

/-- JavaScript truthiness of a value (NaN is not modelled). -/
def jsTruthy : JVal → Bool
  | .nullv => false
  | .boolv b => b
  | .numv n => n != 0
  | .strv s => s != ""
  | .arrv _ => true
  | .objv _ => true

/-- Does the value have JavaScript typeof equal to object and is truthy?
This is the test `event.data && typeof event.data === "object"` from
sanitizeEventData (arrays and objects pass; null is falsy). -/
def jsObjLike : JVal → Bool
  | .arrv _ => true
  | .objv _ => true
  | _ => false

/-- Property read `v[k]` on a JavaScript value: only objects yield fields
(the string keys consulted by the code never collide with array indices). -/
def getField : JVal → String → Option JVal
  | .objv fs, k => (fs.find? (fun p => p.1 == k)).map (fun p => p.2)
  | _, _ => none

/-- Is the field present and truthy (the `data?.summary` style guards)? -/
def truthyField (v : JVal) (k : String) : Bool :=
  match getField v k with
  | some x => jsTruthy x
  | none => false

/-- Strict equality `v[k] === s` against a string literal. -/
def strFieldEq (v : JVal) (k s : String) : Bool :=
  match getField v k with
  | some (.strv t) => t == s
  | _ => false

/-- Object.entries: objects yield their fields, arrays index-keyed elements,
strings index-keyed characters, primitives nothing. -/
def jsEntries : JVal → List (String × JVal)
  | .objv fs => fs
  | .arrv xs => (List.range xs.length).zip xs |>.map (fun p => (toString p.1, p.2))
  | .strv s => (List.range s.data.length).zip s.data |>.map
      (fun p => (toString p.1, .strv (String.mk [p.2])))
  | _ => []

/-- String coercion used where the code stores a dynamic value into a string
position (template literals, field copies).  Array/object rendering is not
needed by any reachable payload and is collapsed to the empty string. -/
def jstr : JVal → String
  | .strv s => s
  | .numv n => toString n
  | .boolv true => "true"
  | .boolv false => "false"
  | .nullv => "null"
  | .arrv _ => ""
  | .objv _ => ""

/-- Coercion of a possibly-absent property into string concatenation:
JavaScript renders an absent property as the text undefined. -/
def jstrOpt : Option JVal → String
  | some v => jstr v
  | none => "undefined"

/- Character constants written via code points to keep the file free of
quote and brace literals. -/

def squoteCh : Char := Char.ofNat 39
def dquoteCh : Char := Char.ofNat 34
def lcurlyCh : Char := Char.ofNat 123
def rcurlyCh : Char := Char.ofNat 125
def backslashCh : Char := Char.ofNat 92
def newlineCh : Char := Char.ofNat 10

/-- Either quote character, the regex class of a single quote or double quote. -/
def isQCh (c : Char) : Bool := c == squoteCh || c == dquoteCh

/-- ASCII lower-casing of one character, modelling toLowerCase on the
ASCII identifiers the payloads carry. -/
def lowerChar (c : Char) : Char :=
  if c.toNat ≥ 65 ∧ c.toNat ≤ 90 then Char.ofNat (c.toNat + 32) else c

def lowerStr (s : String) : String := String.mk (s.data.map lowerChar)

/-- Replacement per character for the regex class of anything outside
lowercase letters and digits, used in generated node ids. -/
def idSafeChar (c : Char) : Char :=
  if (c.toNat ≥ 97 ∧ c.toNat ≤ 122) ∨ (c.toNat ≥ 48 ∧ c.toNat ≤ 57) then c
  else Char.ofNat 95

def idSafe (s : String) : String := String.mk (s.data.map idSafeChar)

/-- Is the pattern an initial segment of the character list? -/
def leadsWith : List Char → List Char → Bool
  | [], _ => true
  | _ :: _, [] => false
  | p :: ps, c :: cs => p == c && leadsWith ps cs

/-- Does the list contain the pattern as a contiguous segment?  This models
the String.prototype.includes tests of inferNodeCategory and inferNodeIcon. -/
def hasSeg (pat : List Char) : List Char → Bool
  | [] => leadsWith pat []
  | c :: cs => leadsWith pat (c :: cs) || hasSeg pat cs

def strHas (s : String) (pat : String) : Bool := hasSeg pat.data s.data

/-- Substring containment on the lower-cased text, the idiom
(name + " " + description).toLowerCase().includes(pat). -/
def textHas (text : String) (pat : String) : Bool := strHas (lowerStr text) pat

/-! Scanners modelling the concrete regular expressions used by
parseNodeString and extractConnectionsFromNodes. -/

def keyIdEq : List Char := ("id=").data
def keyNameEq : List Char := ("name=").data
def keyTypeEq : List Char := ("type=").data
def keyParamsBr : List Char := ("params=[").data
def keyLoopOver : List Char := ("loop_over=").data
def npHead : List Char := ("NodeParams(param_name=").data
def npMid : List Char := (", param_value=").data
def keyParamValue : List Char := ("param_value=").data
def keyParamName : List Char := ("param_name=").data
def litTrue : List Char := ("true").data
def litFalse : List Char := ("false").data
def litNull : List Char := ("null").data
def refHead : List Char := [lcurlyCh, lcurlyCh, '$']

/-- One attempt, at the current position, of the pattern
key followed by a quote, a nonempty quote-free capture, and a quote. -/
def tryKeyQuoted (pat : List Char) (cs : List Char) : Option (List Char) :=
  if leadsWith pat cs then
    match cs.drop pat.length with
    | q :: tl =>
      if isQCh q then
        let run := tl.takeWhile (fun c => !(isQCh c))
        match tl.drop run.length with
        | q2 :: _ => if isQCh q2 && run != ([] : List Char) then some run else none
        | [] => none
      else none
    | [] => none
  else none

/-- Leftmost match of the quoted-key pattern, as the regex engine finds it. -/
def matchKeyQuoted (pat : List Char) : List Char → Option (List Char)
  | [] => none
  | c :: cs =>
    match tryKeyQuoted pat (c :: cs) with
    | some r => some r
    | none => matchKeyQuoted pat cs

/-- One attempt of the lazy bracket segment after the literal params key:
the capture is the maximal run before the first close bracket, which must
exist and must not contain a newline (the lazy dot excludes newlines). -/
def tryParamsSeg (cs : List Char) : Option (List Char) :=
  if leadsWith keyParamsBr cs then
    let tl := cs.drop keyParamsBr.length
    let run := tl.takeWhile (fun c => c != ']')
    if run.contains newlineCh then none
    else
      match tl.drop run.length with
      | _ :: _ => some run
      | [] => none
  else none

def matchParamsSeg : List Char → Option (List Char)
  | [] => none
  | c :: cs =>
    match tryParamsSeg (c :: cs) with
    | some r => some r
    | none => matchParamsSeg cs

/-- One attempt of the loop key capture: a nonempty run of characters that
are neither a comma nor a close bracket. -/
def tryLoopOver (cs : List Char) : Option (List Char) :=
  if leadsWith keyLoopOver cs then
    let run := (cs.drop keyLoopOver.length).takeWhile (fun c => c != ',' && c != ']')
    if run == ([] : List Char) then none else some run
  else none

def matchLoopOver : List Char → Option (List Char)
  | [] => none
  | c :: cs =>
    match tryLoopOver (c :: cs) with
    | some r => some r
    | none => matchLoopOver cs

/-- One attempt of the NodeParams(...) pattern; on success returns the whole
matched substring together with the remainder of the input, mirroring the
global regex that later gets re-scanned per match by the source. -/
def tryNodeParams (cs : List Char) : Option (List Char × List Char) :=
  if leadsWith npHead cs then
    match cs.drop npHead.length with
    | q :: tl =>
      if isQCh q then
        let run1 := tl.takeWhile (fun c => !(isQCh c))
        if run1 == ([] : List Char) then none
        else
          match tl.drop run1.length with
          | q2 :: tl2 =>
            if leadsWith npMid tl2 then
              let tl3 := tl2.drop npMid.length
              let run2 := tl3.takeWhile (fun c => c != ')')
              if run2 == ([] : List Char) then none
              else
                match tl3.drop run2.length with
                | _ :: rest =>
                  some (npHead ++ q :: (run1 ++ q2 :: (npMid ++ run2 ++ [')'])), rest)
                | [] => none
            else none
          | [] => none
      else none
    | [] => none
  else none

/-- All matches of the global NodeParams pattern, leftmost first; the fuel
equals the input length, enough because every step consumes a character. -/
def scanNodeParamsAux : Nat → List Char → List (List Char)
  | 0, _ => []
  | _ + 1, [] => []
  | f + 1, c :: cs =>
    match tryNodeParams (c :: cs) with
    | some (ms, rest) => ms :: scanNodeParamsAux f rest
    | none => scanNodeParamsAux f cs

def scanNodeParams (cs : List Char) : List (List Char) :=
  scanNodeParamsAux cs.length cs

/-- One attempt of key followed by a greedy dot capture: the maximal
newline-free run after the key, required nonempty. -/
def tryKeyRest (pat : List Char) (cs : List Char) : Option (List Char) :=
  if leadsWith pat cs then
    let run := (cs.drop pat.length).takeWhile (fun c => c != newlineCh)
    if run == ([] : List Char) then none else some run
  else none

def matchKeyRest (pat : List Char) : List Char → Option (List Char)
  | [] => none
  | c :: cs =>
    match tryKeyRest pat (c :: cs) with
    | some r => some r
    | none => matchKeyRest pat cs

/-- One attempt of the variable-reference pattern: open braces and a dollar,
a nonempty run free of dots and close braces, a run free of close braces,
then two close braces; returns the capture and the consumed length. -/
def tryVarRef (cs : List Char) : Option (List Char × Nat) :=
  if leadsWith refHead cs then
    let tl := cs.drop 3
    let run1 := tl.takeWhile (fun c => c != '.' && c != rcurlyCh)
    if run1 == ([] : List Char) then none
    else
      let tl2 := tl.drop run1.length
      let run2 := tl2.takeWhile (fun c => c != rcurlyCh)
      match tl2.drop run2.length with
      | a :: b :: _ =>
        if a == rcurlyCh && b == rcurlyCh then
          some (run1, 3 + run1.length + run2.length + 2)
        else none
      | _ => none
  else none

def extractVarRefsAux : Nat → List Char → List String
  | 0, _ => []
  | _ + 1, [] => []
  | f + 1, c :: cs =>
    match tryVarRef (c :: cs) with
    | some (cap, n) => String.mk cap :: extractVarRefsAux f ((c :: cs).drop n)
    | none => extractVarRefsAux f cs

/-- All captures of the global variable-reference pattern in a string. -/
def extractVarRefs (s : String) : List String :=
  extractVarRefsAux s.data.length s.data

/-! Model of JSON.parse, used by the corruption-recovery branch of
updateNodeConfiguration on the string-encoded node list.  Fractional and
exponent number tails are consumed but collapsed to the integer part, and
unicode escapes are unsupported: no consumer of the state ever reads a
numeric payload value, and no payload carries such escapes.  Fuel-bounded
recursion: the fuel supplied by jsParse dominates every possible nesting. -/

def isWsCh (c : Char) : Bool :=
  c == ' ' || c == newlineCh || c == Char.ofNat 9 || c == Char.ofNat 13

def jsonSkipWs (cs : List Char) : List Char := cs.dropWhile isWsCh

def escChar (c : Char) : Option Char :=
  if c == dquoteCh then some dquoteCh
  else if c == backslashCh then some backslashCh
  else if c == '/' then some '/'
  else if c == 'n' then some newlineCh
  else if c == 't' then some (Char.ofNat 9)
  else if c == 'r' then some (Char.ofNat 13)
  else if c == 'b' then some (Char.ofNat 8)
  else if c == 'f' then some (Char.ofNat 12)
  else none

def parseJStrAux : Nat → List Char → Option (List Char × List Char)
  | 0, _ => none
  | _ + 1, [] => none
  | f + 1, c :: cs =>
    if c == dquoteCh then some ([], cs)
    else if c == backslashCh then
      match cs with
      | [] => none
      | e :: tl =>
        match escChar e with
        | some ec => (parseJStrAux f tl).map (fun p => (ec :: p.1, p.2))
        | none => none
    else (parseJStrAux f cs).map (fun p => (c :: p.1, p.2))

def parseJStr (cs : List Char) : Option (List Char × List Char) :=
  parseJStrAux (cs.length + 1) cs

def isDigitCh (c : Char) : Bool := c.toNat ≥ 48 && c.toNat ≤ 57

def isNumTailCh (c : Char) : Bool :=
  isDigitCh c || c == '.' || c == 'e' || c == 'E' || c == '+' || c == '-'

def digitsToInt (ds : List Char) : Int :=
  ds.foldl (fun acc d => acc * 10 + Int.ofNat (d.toNat - 48)) 0

def parseJNum (cs : List Char) : Option (JVal × List Char) :=
  let p := match cs with
    | c :: tl => if c == '-' then (true, tl) else (false, cs)
    | [] => (false, cs)
  let ds := p.2.takeWhile isDigitCh
  if ds == ([] : List Char) then none
  else
    let rest := (p.2.drop ds.length).dropWhile isNumTailCh
    let n : Int := digitsToInt ds
    some (.numv (if p.1 then -n else n), rest)

/-- Later assignments to a duplicated key win while the key keeps its first
position, as JSON.parse builds its object. -/
def objInsert (fs : List (String × JVal)) (k : String) (v : JVal) :
    List (String × JVal) :=
  if fs.any (fun p => p.1 == k) then
    fs.map (fun p => if p.1 == k then (k, v) else p)
  else fs ++ [(k, v)]

mutual

def parseJV : Nat → List Char → Option (JVal × List Char)
  | 0, _ => none
  | f + 1, cs0 =>
    let cs := jsonSkipWs cs0
    match cs with
    | [] => none
    | c :: rest =>
      if c == dquoteCh then
        (parseJStr rest).map (fun p => (JVal.strv (String.mk p.1), p.2))
      else if c == '[' then
        (parseJArrTail f rest true).map (fun p => (JVal.arrv p.1, p.2))
      else if c == lcurlyCh then
        (parseJObjTail f rest true []).map (fun p => (JVal.objv p.1, p.2))
      else if leadsWith litTrue cs then some (.boolv true, cs.drop 4)
      else if leadsWith litFalse cs then some (.boolv false, cs.drop 5)
      else if leadsWith litNull cs then some (.nullv, cs.drop 4)
      else parseJNum cs

def parseJArrTail : Nat → List Char → Bool → Option (List JVal × List Char)
  | 0, _, _ => none
  | f + 1, cs0, first =>
    let cs := jsonSkipWs cs0
    match cs with
    | [] => none
    | c :: rest =>
      if c == ']' && first then some ([], rest)
      else
        match parseJV f cs with
        | none => none
        | some (v, r) =>
          match jsonSkipWs r with
          | ',' :: r3 => (parseJArrTail f r3 false).map (fun p => (v :: p.1, p.2))
          | c2 :: r3 => if c2 == ']' then some ([v], r3) else none
          | [] => none

def parseJObjTail : Nat → List Char → Bool → List (String × JVal) →
    Option (List (String × JVal) × List Char)
  | 0, _, _, _ => none
  | f + 1, cs0, first, acc =>
    let cs := jsonSkipWs cs0
    match cs with
    | [] => none
    | c :: rest =>
      if c == rcurlyCh && first then some (acc, rest)
      else if c == dquoteCh then
        match parseJStr rest with
        | none => none
        | some (k, r1) =>
          match jsonSkipWs r1 with
          | c2 :: r2 =>
            if c2 == ':' then
              match parseJV f r2 with
              | none => none
              | some (v, r3) =>
                let acc2 := objInsert acc (String.mk k) v
                match jsonSkipWs r3 with
                | ',' :: r4 => parseJObjTail f r4 false acc2
                | c3 :: r4 =>
                  if c3 == rcurlyCh then some (acc2, r4) else none
                | [] => none
            else none
          | [] => none
      else none

end

def jsParse (s : String) : Option JVal :=
  match parseJV (4 * s.data.length + 4) s.data with
  | some (v, r) => if jsonSkipWs r == ([] : List Char) then some v else none
  | none => none

/-! Domain data model, following src/types/generation.ts. -/

inductive SSEStepType where
  | architecture_planner
  | database_setup
  | node_selector
  | connection_builder
  | node_configurator
  | workflow_saver
deriving DecidableEq

def stepName : SSEStepType → String
  | .architecture_planner => "architecture_planner"
  | .database_setup => "database_setup"
  | .node_selector => "node_selector"
  | .connection_builder => "connection_builder"
  | .node_configurator => "node_configurator"
  | .workflow_saver => "workflow_saver"

inductive SSEStatusType where
  | started
  | done
  | error
deriving DecidableEq

inductive SSESystemEventType where
  | connected
  | status
  | status_change
  | complete
  | heartbeat
  | error
deriving DecidableEq

def sysName : SSESystemEventType → String
  | .connected => "connected"
  | .status => "status"
  | .status_change => "status_change"
  | .complete => "complete"
  | .heartbeat => "heartbeat"
  | .error => "error"

/-- Wire event: the discriminated union of step events (step/status/data)
and system events; of a system event only its type and status property are
ever consulted, so only those are carried. -/
inductive SSEEvent where
  | stepEv (step : SSEStepType) (status : SSEStatusType) (data : JVal)
  | systemEv (ty : SSESystemEventType) (status : Option JVal)

structure InternalWorkflowNode where
  nodeId : String
  name : String
  description : String
  status : String
  params : JVal
  loop_text : Option String
  category : String
  icon : String
  inputs : JVal
  outputs : List (String × String)
  isMock : Bool
  isArchitecturePlanner : Bool

structure InternalConnection where
  source : String
  target : String
  id : String
deriving DecidableEq

structure InternalDatabaseInfo where
  name : String
  link : String
deriving DecidableEq

structure ChatMessage where
  id : String
  type : String
  content : JVal
  timestamp : Nat
  step : Option String

structure GenerationState where
  currentStep : Option String
  isComplete : Bool
  hasError : Bool
  chatMessages : List ChatMessage
  nodes : List InternalWorkflowNode
  connections : List InternalConnection
  databases : Option (Option InternalDatabaseInfo)
  mockNodes : List InternalWorkflowNode
  hasMockNodes : Bool
  showCanvas : Bool
  isCollapsed : Bool
  generationId : Option String

def isStrv : JVal → Bool
  | .strv _ => true
  | _ => false

def isStrField (v : JVal) (k : String) : Bool :=
  match getField v k with
  | some (.strv _) => true
  | _ => false

def jvalIsStr : JVal → String → Bool
  | .strv t, s => t == s
  | _, _ => false

/-! Transformers, following src/lib/generation-transformers.ts. -/

def inferNodeCategory (name description : String) : String :=
  let text := name ++ " " ++ description
  if textHas text ("input") || textHas text ("form") || textHas text ("enters") then
    "Input"
  else if textHas text ("ai") || textHas text ("gpt") || textHas text ("model") ||
      textHas text ("reasoning") then
    "AI"
  else if textHas text ("output") || textHas text ("save") || textHas text ("insert") ||
      textHas text ("store") || textHas text ("send") || textHas text ("email") ||
      textHas text ("slack") then
    "Output"
  else ("Processing")

def inferNodeIcon (name description : String) : String :=
  let text := name ++ " " ++ description
  if textHas text ("user") || textHas text ("input") || textHas text ("form") then ("user")
  else if textHas text ("ai") || textHas text ("reasoning") || textHas text ("gpt") then ("brain")
  else if textHas text ("database") || textHas text ("save") || textHas text ("store") then ("database")
  else if textHas text ("email") || textHas text ("mail") then ("mail")
  else if textHas text ("search") || textHas text ("find") then ("search")
  else if textHas text ("api") || textHas text ("web") then ("web")
  else if textHas text ("document") || textHas text ("file") then ("document")
  else ("settings")

/-- Mock inputs per node name; the numeric temperature 0.7 is kept as its
literal text because no consumer of the state ever reads these values. -/
def generateMockInputs (name : String) : JVal :=
  let text := lowerStr name
  if strHas text ("user") || strHas text ("input") then
    .objv [("firstName", .strv ("\x7b\x7buser.firstName\x7d\x7d")),
           ("lastName", .strv ("\x7b\x7buser.lastName\x7d\x7d")),
           ("email", .strv ("\x7b\x7buser.email\x7d\x7d"))]
  else if strHas text ("ai") || strHas text ("reasoning") then
    .objv [("prompt", .strv ("Analyze the data: \x7b\x7binput.data\x7d\x7d")),
           ("model", .strv ("gpt-4")),
           ("temperature", .strv ("0.7"))]
  else .objv []

def generateMockOutputs (name : String) : List (String × String) :=
  let text := lowerStr name
  if strHas text ("user") || strHas text ("input") then
    [("userData", "Object"), ("isValid", "Boolean")]
  else if strHas text ("ai") || strHas text ("reasoning") then
    [("analysis", "String"), ("confidence", "Number")]
  else
    [("result", "Object"), ("success", "Boolean")]

/-- Placeholder nodes from the planner summary list; a non-string element
would raise a TypeError in toLowerCase, modelled as none. -/
def transformArchitecturePlannerNodes (summary : List JVal) (now : Nat) :
    Option (List InternalWorkflowNode) :=
  if summary.all isStrv then
    some (summary.mapIdx (fun i v =>
      let nodeName := jstr v
      { nodeId := "node_" ++ idSafe (lowerStr nodeName) ++ "_" ++ toString now ++
          "_" ++ toString i
        name := nodeName
        description := nodeName ++ " node - finalizing nodes..."
        status := "idle"
        params := JVal.nullv
        loop_text := none
        category := inferNodeCategory nodeName nodeName
        icon := inferNodeIcon nodeName nodeName
        inputs := generateMockInputs nodeName
        outputs := generateMockOutputs nodeName
        isMock := false
        isArchitecturePlanner := true }))
  else none

def transformMockNodes (nodeNames : List String) (now : Nat) :
    List InternalWorkflowNode :=
  nodeNames.mapIdx (fun i nodeName =>
    { nodeId := "mock_" ++ idSafe (lowerStr nodeName) ++ "_" ++ toString now ++
        "_" ++ toString i
      name := nodeName
      description := nodeName ++ " - generating details..."
      status := "generating"
      params := JVal.nullv
      loop_text := none
      category := inferNodeCategory nodeName nodeName
      icon := inferNodeIcon nodeName nodeName
      inputs := generateMockInputs nodeName
      outputs := generateMockOutputs nodeName
      isMock := true
      isArchitecturePlanner := false })

/-- Authoritative node list from a node_selector payload.  Elements that are
falsy or lack a truthy nodeId are dropped; a kept element whose name is not a
string would raise in generateMockInputs, modelled as none.  A truthy
non-string nodeId is kept by the source as-is; it is stored here through the
string coercion, which no claim distinguishes. -/
def transformNodes (data : JVal) : Option (List InternalWorkflowNode) :=
  match getField data ("nodes") with
  | some (.arrv nodes) =>
    let kept := nodes.filter (fun v => jsTruthy v && truthyField v ("nodeId"))
    if kept.all (fun v => isStrField v ("name")) then
      some (kept.map (fun v =>
        { nodeId := jstrOpt (getField v ("nodeId"))
          name := if truthyField v ("name") then jstrOpt (getField v ("name"))
            else ("Unnamed Node")
          description := if truthyField v ("description") then
              jstrOpt (getField v ("description"))
            else ("No description")
          status := "idle"
          params := JVal.nullv
          loop_text := none
          category := inferNodeCategory (jstrOpt (getField v ("name")))
            (jstrOpt (getField v ("description")))
          icon := inferNodeIcon (jstrOpt (getField v ("name")))
            (jstrOpt (getField v ("description")))
          inputs := generateMockInputs (jstrOpt (getField v ("name")))
          outputs := generateMockOutputs (jstrOpt (getField v ("name")))
          isMock := false
          isArchitecturePlanner := false }))
    else none
  | _ => some []

/-- Edge list from a connection_builder payload; mapping over a value that
is not an array raises, modelled as none. -/
def transformConnections (data : JVal) : Option (List InternalConnection) :=
  match getField data ("connections") with
  | some (.arrv cs) =>
    some (cs.mapIdx (fun i c =>
      { source := jstrOpt (getField c ("source"))
        target := jstrOpt (getField c ("target"))
        id := "edge_" ++ jstrOpt (getField c ("source")) ++ "_" ++
          jstrOpt (getField c ("target")) ++ "_" ++ toString i }))
  | _ => none

def transformDatabaseInfo (dbs : List JVal) : Option InternalDatabaseInfo :=
  match dbs with
  | [] => none
  | d :: _ =>
    some { name := jstrOpt (getField d ("name")), link := jstrOpt (getField d ("link")) }

def updateNodeStatus (nodes : List InternalWorkflowNode) (target : Option JVal)
    (status : String) : List InternalWorkflowNode :=
  nodes.map (fun node =>
    if (match target with | some v => jvalIsStr v node.nodeId | none => false) then
      { node with status := status }
    else node)

/-- Cleanup of a raw param_value capture: the source first strips one
trailing close paren, then either unquotes a single-quoted value, or tries
JSON.parse on a bracketed value after turning single quotes into double
quotes (keeping the original string if the parse fails). -/
def cleanupParamValue (cs : List Char) : JVal :=
  let v := if cs.getLast? == some ')' then cs.dropLast else cs
  if v.head? == some squoteCh && v.getLast? == some squoteCh then
    JVal.strv (String.mk ((v.drop 1).dropLast))
  else if v.head? == some '[' && v.getLast? == some ']' then
    match jsParse (String.mk (v.map (fun c => if c == squoteCh then dquoteCh else c))) with
    | some j => j
    | none => JVal.strv (String.mk v)
  else JVal.strv (String.mk v)

/-- Parser for one malformed backend record of the shape
id=... name=... type=... params=[...] loop_over=...; returns none exactly
where the source logs and returns null (a missing id, name or type match). -/
def parseNodeString (s : String) : Option InternalWorkflowNode :=
  let cs := s.data
  match matchKeyQuoted keyIdEq cs, matchKeyQuoted keyNameEq cs,
      matchKeyQuoted keyTypeEq cs with
  | some idc, some namec, some typec =>
    let nodeId := String.mk idc
    let name := String.mk namec
    let ty := String.mk typec
    let params : List (String × JVal) :=
      match matchParamsSeg cs with
      | some pseg =>
        (scanNodeParams pseg).foldl (fun acc ms =>
          match matchKeyQuoted keyParamName ms, matchKeyRest keyParamValue ms with
          | some pn, some pv => objInsert acc (String.mk pn) (cleanupParamValue pv)
          | _, _ => acc) []
      | none => []
    let loop_text : Option String :=
      match matchLoopOver cs with
      | some run =>
        if String.mk run == "None" then none
        else some (String.mk (run.filter (fun c => !(isQCh c))))
      | none => none
    some { nodeId := nodeId
           name := name
           description := ty ++ " node"
           status := "configured"
           params := JVal.objv params
           loop_text := loop_text
           category := inferNodeCategory name ty
           icon := inferNodeIcon name ty
           inputs := JVal.objv params
           outputs := generateMockOutputs name
           isMock := false
           isArchitecturePlanner := false }
  | _, _, _ => none

/-- The corruption-recovery branch of updateNodeConfiguration: some nodes
are extracted iff nodeId is the literal unknown, name is a string starting
with an open bracket, JSON.parse succeeds with an array, and at least one
element parses as a node record (non-string elements raise inside the
per-record try and are skipped as null). -/
def recoveredNodes (data : JVal) : Option (List InternalWorkflowNode) :=
  if strFieldEq data ("nodeId") ("unknown") then
    match getField data ("name") with
    | some (.strv s) =>
      if s.data.head? == some '[' then
        match jsParse s with
        | some (.arrv elems) =>
          let ex := elems.filterMap (fun e =>
            match e with
            | .strv t => parseNodeString t
            | _ => none)
          if ex.isEmpty then none else some ex
        | _ => none
      else none
    | _ => none
  else none

/-- Merge of two spreads into an object literal, the
inputs computation of the normal configuration update. -/
def spreadMerge (a b : JVal) : JVal :=
  JVal.objv ((jsEntries b).foldl (fun acc p => objInsert acc p.1 p.2) (jsEntries a))

def updateNodeConfiguration (nodes : List InternalWorkflowNode) (data : JVal) :
    List InternalWorkflowNode :=
  match recoveredNodes data with
  | some ex => ex
  | none =>
    nodes.map (fun node =>
      if (match getField data ("nodeId") with
          | some v => jvalIsStr v node.nodeId
          | none => false) then
        { node with
          name := if truthyField data ("name") then jstrOpt (getField data ("name"))
            else node.name
          description := if truthyField data ("description") then
              jstrOpt (getField data ("description"))
            else node.description
          params := if truthyField data ("params") then
              (getField data ("params")).getD JVal.nullv
            else JVal.objv []
          loop_text := match getField data ("loop_text") with
            | some (.strv t) => some t
            | _ => none
          status := "configured"
          inputs := spreadMerge node.inputs ((getField data ("params")).getD JVal.nullv) }
      else node)

/-- Concatenated map, the nested iteration order of the source loops. -/
def cmap (f : α → List β) : List α → List β
  | [] => []
  | a :: rest => f a ++ cmap f rest

/-- Candidate references in iteration order: for each node with truthy
params, for each entry with a string value, each variable-reference capture
paired with the referencing node. -/
def refCandidates (nodes : List InternalWorkflowNode) : List (String × String) :=
  cmap (fun n =>
    if jsTruthy n.params then
      cmap (fun p =>
        match p.2 with
        | JVal.strv s => (extractVarRefs s).map (fun r => (r, n.nodeId))
        | _ => []) (jsEntries n.params)
    else []) nodes

def connKey (src tgt : String) : String := src ++ "_to_" ++ tgt

def extractConnStep (nodes : List InternalWorkflowNode)
    (acc : List InternalConnection × List String) (p : String × String) :
    List InternalConnection × List String :=
  if nodes.any (fun n => n.nodeId == p.1) && p.1 != p.2 &&
      !(acc.2.contains (connKey p.1 p.2)) then
    (acc.1 ++ [{ source := p.1, target := p.2,
                 id := "edge_" ++ p.1 ++ "_" ++ p.2 }],
     acc.2 ++ [connKey p.1 p.2])
  else acc

def extractConnectionsFromNodes (nodes : List InternalWorkflowNode) :
    List InternalConnection :=
  ((refCandidates nodes).foldl (extractConnStep nodes) ([], [])).1

/-- Normalizer: system events pass through; step events get an object-typed
data (else replaced by an empty object, with an early return), and for the
three array-carrying steps an existing object data gets its array field
checked and replaced by an empty array on violation. -/
def sanitizeEventData : SSEEvent → SSEEvent
  | .systemEv t st => .systemEv t st
  | .stepEv st status data =>
    if !(jsObjLike data) then .stepEv st status (.objv [])
    else
      match st with
      | .node_selector =>
        match getField data ("nodes") with
        | some (.arrv _) => .stepEv st status data
        | _ => .stepEv st status (.objv [("nodes", .arrv [])])
      | .connection_builder =>
        match getField data ("connections") with
        | some (.arrv _) => .stepEv st status data
        | _ => .stepEv st status (.objv [("connections", .arrv [])])
      | .database_setup =>
        match getField data ("databases") with
        | some (.arrv _) => .stepEv st status data
        | _ => .stepEv st status (.objv [("databases", .arrv [])])
      | _ => .stepEv st status data

/-! Reducer, following src/hooks/use-generation-state.ts. -/

def createInitialState (generationId : Option String) : GenerationState :=
  { currentStep := none
    isComplete := false
    hasError := false
    chatMessages := []
    nodes := []
    connections := []
    databases := none
    mockNodes := []
    hasMockNodes := false
    showCanvas := false
    isCollapsed := false
    generationId := generationId }

def mkMsg (id ty : String) (content : JVal) (now : Nat) (step : Option String) :
    ChatMessage :=
  { id := id, type := ty, content := content, timestamp := now, step := step }

/-- Strict comparison of the status property of a system event against a
string literal. -/
def sysStatusIs (status : Option JVal) (s : String) : Bool :=
  match status with
  | some v => jvalIsStr v s
  | none => false

/-- System-event branch of handleSSEMessage: connected records connectivity,
a status of COMPLETED or ERROR sets the respective terminal flag and appends
one chat message, everything else returns the copied state unchanged. -/
def applySystem (s : GenerationState) (ty : SSESystemEventType)
    (status : Option JVal) (now : Nat) : GenerationState :=
  match ty with
  | .connected => { s with currentStep := some ("connected") }
  | .status =>
    if sysStatusIs status ("COMPLETED") then
      { s with isComplete := true
               currentStep := some ("completed")
               chatMessages := s.chatMessages ++
                 [mkMsg ("msg_" ++ toString now ++ "_completed") ("assistant")
                   (.strv ("Agent generation complete!")) now (some ("completed"))] }
    else if sysStatusIs status ("ERROR") then
      { s with hasError := true
               currentStep := some ("error")
               chatMessages := s.chatMessages ++
                 [mkMsg ("msg_" ++ toString now ++ "_error") ("error")
                   (.strv ("An error occurred during generation")) now (some ("error"))] }
    else s
  | .status_change => s
  | .complete => s
  | .heartbeat => s
  | .error => s

/-- Architecture-planner started branch: append the prompt summary as a
system chat message when present and truthy. -/
def archStartBranch (s : GenerationState) (st : SSEStepType)
    (status : SSEStatusType) (data : JVal) (now : Nat) : GenerationState :=
  if st = .architecture_planner ∧ status = .started ∧
      truthyField data ("summary") then
    { s with chatMessages := s.chatMessages ++
        [mkMsg ("msg_" ++ toString now ++ "_prompt") ("system")
          ((getField data ("summary")).getD JVal.nullv) now
          (some ("architecture_planner"))] }
  else s

/-- Architecture-planner done branch: replace the mock nodes with
synthesized placeholders (an array summary; anything else yields none
placeholders) and show the canvas. -/
def archDoneBranch (s : GenerationState) (st : SSEStepType)
    (status : SSEStatusType) (data : JVal) (now : Nat) : Option GenerationState :=
  if st = .architecture_planner ∧ status = .done ∧ truthyField data ("summary") then
    let xs := match getField data ("summary") with
      | some (.arrv xs) => xs
      | _ => []
    (transformArchitecturePlannerNodes xs now).map (fun mockNodes =>
      { s with mockNodes := mockNodes
               hasMockNodes := mockNodes.length > 0
               showCanvas := true })
  else some s

/-- Node-selector done branch: replace the authoritative node list and
clear the mock population. -/
def nodeSelectorBranch (s : GenerationState) (st : SSEStepType)
    (status : SSEStatusType) (data : JVal) : Option GenerationState :=
  if st = .node_selector ∧ status = .done ∧ truthyField data ("nodes") then
    (transformNodes data).map (fun ns =>
      { s with nodes := ns, hasMockNodes := false, mockNodes := [] })
  else some s

/-- Connection-builder done branch: replace the connection list (no guard
on the payload in the source, hence the possible crash). -/
def connBuilderBranch (s : GenerationState) (st : SSEStepType)
    (status : SSEStatusType) (data : JVal) : Option GenerationState :=
  if st = .connection_builder ∧ status = .done then
    (transformConnections data).map (fun conns => { s with connections := conns })
  else some s

/-- Node-configurator branch: started marks the named node configuring;
done merges the configuration, or on corruption recovery (detected by the
node count growing) replaces nodes, re-derives connections and shows the
canvas. -/
def nodeConfiguratorBranch (s : GenerationState) (st : SSEStepType)
    (status : SSEStatusType) (data : JVal) : GenerationState :=
  if st = .node_configurator then
    if status = .started ∧ truthyField data ("nodeId") then
      { s with nodes :=
          updateNodeStatus s.nodes (getField data ("nodeId")) ("configuring") }
    else if status = .done then
      let previousNodeCount := s.nodes.length
      let updatedNodes := updateNodeConfiguration s.nodes data
      if updatedNodes.length > previousNodeCount then
        { s with nodes := updatedNodes
                 connections := extractConnectionsFromNodes updatedNodes
                 showCanvas := true }
      else { s with nodes := updatedNodes }
    else s
  else s

/-- Database-setup done branch: record the database summary info. -/
def databaseBranch (s : GenerationState) (st : SSEStepType)
    (status : SSEStatusType) (data : JVal) : GenerationState :=
  if st = .database_setup ∧ status = .done ∧ truthyField data ("databases") then
    let dbs := match getField data ("databases") with
      | some (.arrv xs) => xs
      | _ => []
    { s with databases := some (transformDatabaseInfo dbs) }
  else s

/-- Any-step error branch: set the error flag and append an error chat
message. -/
def stepErrorBranch (s : GenerationState) (st : SSEStepType)
    (status : SSEStatusType) (data : JVal) (now : Nat) : GenerationState :=
  if status = .error then
    { s with hasError := true
             chatMessages := s.chatMessages ++
               [mkMsg ("msg_" ++ toString now ++ "_step_error") ("error")
                 (if truthyField data ("message") then
                    (getField data ("message")).getD JVal.nullv
                  else .strv ("Error in " ++ stepName st)) now
                 (some (stepName st))] }
  else s

/-- Step-event branch of handleSSEMessage, on already-sanitized data, as the
sequential composition of the source branches; none models a TypeError
escaping the updater (connection_builder mapping over a missing connections
array, or a planner summary with non-string elements). -/
def applyStep (s0 : GenerationState) (st : SSEStepType) (status : SSEStatusType)
    (data : JVal) (now : Nat) : Option GenerationState :=
  (archDoneBranch (archStartBranch { s0 with currentStep := some (stepName st) }
      st status data now) st status data now).bind (fun s2 =>
  (nodeSelectorBranch s2 st status data).bind (fun s3 =>
  (connBuilderBranch s3 st status data).map (fun s4 =>
  stepErrorBranch (databaseBranch (nodeConfiguratorBranch s4 st status data)
    st status data) st status data now)))

def applyEvent (s : GenerationState) (e : SSEEvent) (now : Nat) :
    Option GenerationState :=
  match sanitizeEventData e with
  | .systemEv ty status => some (applySystem s ty status now)
  | .stepEv st status data => applyStep s st status data now

/-- Session state: the reducer snapshot plus the processed-event-id set of
handleSSEMessage (a ref surviving across events within one session). -/
structure Session where
  gs : GenerationState
  processed : List String

/-- Coarse identity key assigned on arrival: step-or-type concatenated with
the arrival timestamp (the Date.now() read). -/
def eventKey : SSEEvent → Nat → String
  | .stepEv st _ _, now => stepName st ++ "_" ++ toString now
  | .systemEv ty _, now => sysName ty ++ "_" ++ toString now

/-- One inbound event: a repeated key is discarded without touching state;
otherwise the key is recorded and the event reduced. -/
def reduceEvent (sess : Session) (e : SSEEvent) (now : Nat) : Option Session :=
  if sess.processed.contains (eventKey e now) then some sess
  else (applyEvent sess.gs e now).map
    (fun gs => { gs := gs, processed := eventKey e now :: sess.processed })

def resetSession (generationId : Option String) : Session :=
  { gs := createInitialState generationId, processed := [] }

def setMockNodesAction (s : GenerationState) (nodeNames : List String)
    (now : Nat) : GenerationState :=
  let mockNodes := transformMockNodes nodeNames now
  { s with mockNodes := mockNodes
           hasMockNodes := mockNodes.length > 0
           showCanvas := mockNodes.length > 0 }

/-! Projector, following the flowNodes memo of generation-canvas.tsx. -/

structure FlowNode where
  id : String
  x : Int
  y : Int
  name : String
  status : String
  isMock : Bool

/-- Node population selected for rendering: real nodes when non-empty,
otherwise mock nodes. -/
def nodesToRender (s : GenerationState) : List InternalWorkflowNode :=
  if s.nodes.length > 0 then s.nodes else s.mockNodes

def convertToFlowNode (node : InternalWorkflowNode) (index : Nat) : FlowNode :=
  { id := node.nodeId
    x := 100 + (index : Int) * 350
    y := 200
    name := node.name
    status := node.status
    isMock := node.isMock }

def flowNodesOf (s : GenerationState) : List FlowNode :=
  (nodesToRender s).mapIdx (fun i n => convertToFlowNode n i)

/-! Layout and reveal coordinator, following the node-count effect and the
processConnections loop of generation-canvas.tsx, as a step relation on the
cooperative event loop.  A suspended run of processConnections is a loop
entry (captured connection list, next index); timerFire k resumes it at its
next await point.  Nothing ever cancels an entry: the node-count effect only
clears edges and flags. -/

structure CoordState where
  edges : List InternalConnection
  lastNodeCount : Nat
  isProcessingConnections : Bool
  loops : List (List InternalConnection × Nat)

inductive CoordAction where
  | nodesChanged (n : Nat)
  | connectionsEffect (conns : List InternalConnection)
  | timerFire (k : Nat)

def coordStep (st : CoordState) (a : CoordAction) : CoordState :=
  match a with
  | .nodesChanged n =>
    if n > st.lastNodeCount ∧ n > 0 then
      { st with isProcessingConnections := false, edges := [], lastNodeCount := n }
    else if n < st.lastNodeCount then
      { st with isProcessingConnections := false, edges := [], lastNodeCount := n }
    else if st.lastNodeCount = 0 ∧ n > 0 then
      { st with lastNodeCount := n }
    else st
  | .connectionsEffect conns =>
    if conns.length > 0 ∧ st.isProcessingConnections = false ∧
        st.edges.length = 0 then
      { st with isProcessingConnections := true, loops := st.loops ++ [(conns, 0)] }
    else st
  | .timerFire k =>
    match st.loops[k]? with
    | none => st
    | some (conns, i) =>
      if h : i < conns.length then
        { st with edges := st.edges ++ [conns.get ⟨i, h⟩]
                  loops := st.loops.set k (conns, i + 1) }
      else
        { st with isProcessingConnections := false, loops := st.loops.eraseIdx k }

def coordRun (st : CoordState) (acts : List CoordAction) : CoordState :=
  acts.foldl coordStep st

/-! Concrete scenarios used by the claims below. -/

/-- First corrupted record: an HTTP node A with a plain url parameter. -/
def c1rec1 : String :=
  "id=\x27A\x27 name=\x27A\x27 type=\x27HttpRequestNode\x27 params=[NodeParams(param_name=\x27url\x27, param_value=\x27https://x.com\x27)] loop_over=None"

/-- Second corrupted record: a code node B whose input parameter embeds a
variable reference to node A. -/
def c1rec2 : String :=
  "id=\x27B\x27 name=\x27B\x27 type=\x27CodeNode\x27 params=[NodeParams(param_name=\x27input\x27, param_value=\x27\x7b\x7b$A.field\x7d\x7d\x27)] loop_over=None"

/-- The string-encoded array of the two records, as JSON. -/
def c1name : String := "[\x22" ++ c1rec1 ++ "\x22,\x22" ++ c1rec2 ++ "\x22]"

def c1data : JVal :=
  JVal.objv [("nodeId", .strv ("unknown")), ("name", .strv c1name),
             ("description", .strv ("")), ("params", .objv []),
             ("loop_text", .nullv)]

def c1event : SSEEvent := SSEEvent.stepEv .node_configurator .done c1data

/-- Connection-builder done frame with a missing data payload. -/
def cbNullEvent : SSEEvent := SSEEvent.stepEv .connection_builder .done .nullv

def mkSelectorNode (i : String) : JVal :=
  JVal.objv [("nodeId", .strv i), ("name", .strv i), ("description", .strv i)]

def nsData (ids : List String) : JVal :=
  JVal.objv [("nodes", .arrv (ids.map mkSelectorNode))]

/-- A node_selector done event carrying nodes A and B. -/
def nsTwoEvent : SSEEvent := SSEEvent.stepEv .node_selector .done (nsData (["A", "B"]))

/-- A later node_selector done event carrying only node A. -/
def nsOneEvent : SSEEvent := SSEEvent.stepEv .node_selector .done (nsData (["A"]))

/-- A heartbeat system frame, used as a neutral concrete event. -/
def hbEvent : SSEEvent := SSEEvent.systemEv .heartbeat none

/-- A configured node A with a plain parameter, for connection extraction. -/
def refNodeA : InternalWorkflowNode :=
  { nodeId := "A", name := "A", description := "", status := "configured"
    params := JVal.objv [("url", .strv ("https://x.com"))], loop_text := none
    category := "Processing", icon := "settings", inputs := JVal.objv []
    outputs := [], isMock := false, isArchitecturePlanner := false }

/-- A configured node B whose input parameter references node A. -/
def refNodeB : InternalWorkflowNode :=
  { nodeId := "B", name := "B", description := "", status := "configured"
    params := JVal.objv [("input", .strv ("\x7b\x7b$A.field\x7d\x7d"))], loop_text := none
    category := "Processing", icon := "settings", inputs := JVal.objv []
    outputs := [], isMock := false, isArchitecturePlanner := false }

def refNodes : List InternalWorkflowNode := [refNodeA, refNodeB]

/-- Reveal scenario: two connections captured by a running reveal loop. -/
def revealConnA : InternalConnection := { source := "A", target := "B", id := "e1" }

def revealConnB : InternalConnection := { source := "B", target := "C", id := "e2" }

/-- Coordinator at rest with two nodes rendered and no edges. -/
def revealStart : CoordState :=
  { edges := [], lastNodeCount := 2, isProcessingConnections := false, loops := [] }

/-- Schedule: a reveal starts over the two connections, renders the first
edge, then the node count grows mid-flight, then the suspended loop resumes. -/
def revealTrace : List CoordAction :=
  [.connectionsEffect [revealConnA, revealConnB], .timerFire 0,
   .nodesChanged 3, .timerFire 0]

/-- Does the sanitized event wholesale-replace the node list (a
node_selector done frame whose sanitized data has a truthy nodes field)? -/
def selectorReplaces (e : SSEEvent) : Bool :=
  match sanitizeEventData e with
  | .stepEv .node_selector .done d => truthyField d ("nodes")
  | _ => false

/-- Does the sanitized event trigger the corruption-recovery extraction of
updateNodeConfiguration? -/
def configuratorRecovers (e : SSEEvent) : Bool :=
  match sanitizeEventData e with
  | .stepEv .node_configurator .done d => (recoveredNodes d).isSome
  | _ => false

/-! Helper lemmas about the reducer branches. -/

/-- The state keeps the mock flag consistent with the mock list. -/
def mockConsistent (s : GenerationState) : Prop :=
  s.hasMockNodes = true ↔ s.mockNodes ≠ []

theorem archStartBranch_core (s : GenerationState) (st : SSEStepType)
    (status : SSEStatusType) (data : JVal) (now : Nat) :
    (archStartBranch s st status data now).isComplete = s.isComplete ∧
    (archStartBranch s st status data now).hasError = s.hasError ∧
    (archStartBranch s st status data now).nodes = s.nodes ∧
    (archStartBranch s st status data now).mockNodes = s.mockNodes ∧
    (archStartBranch s st status data now).hasMockNodes = s.hasMockNodes := by
  unfold archStartBranch
  split <;> exact ⟨rfl, rfl, rfl, rfl, rfl⟩

theorem archDoneBranch_core {s t : GenerationState} {st : SSEStepType}
    {status : SSEStatusType} {data : JVal} {now : Nat}
    (h : archDoneBranch s st status data now = some t) :
    t.isComplete = s.isComplete ∧ t.hasError = s.hasError ∧ t.nodes = s.nodes ∧
    (mockConsistent s → mockConsistent t) := by
  unfold archDoneBranch at h
  split at h
  · rcases Option.map_eq_some'.mp h with ⟨m, _, rfl⟩
    refine ⟨rfl, rfl, rfl, fun _ => ?_⟩
    simp only [mockConsistent, decide_eq_true_eq]
    exact ⟨fun hl => List.length_pos.mp hl, fun hne => List.length_pos.mpr hne⟩
  · cases h
    exact ⟨rfl, rfl, rfl, id⟩

theorem nodeSelectorBranch_core {s t : GenerationState} {st : SSEStepType}
    {status : SSEStatusType} {data : JVal}
    (h : nodeSelectorBranch s st status data = some t) :
    t.isComplete = s.isComplete ∧ t.hasError = s.hasError ∧
    (mockConsistent s → mockConsistent t) ∧
    (t.nodes = s.nodes ∨
      (st = .node_selector ∧ status = .done ∧ truthyField data ("nodes") = true)) := by
  unfold nodeSelectorBranch at h
  split at h
  · rcases Option.map_eq_some'.mp h with ⟨ns, _, rfl⟩
    refine ⟨rfl, rfl, fun _ => ?_, Or.inr (by assumption)⟩
    simp [mockConsistent]
  · cases h
    exact ⟨rfl, rfl, id, Or.inl rfl⟩

theorem connBuilderBranch_core {s t : GenerationState} {st : SSEStepType}
    {status : SSEStatusType} {data : JVal}
    (h : connBuilderBranch s st status data = some t) :
    t.isComplete = s.isComplete ∧ t.hasError = s.hasError ∧ t.nodes = s.nodes ∧
    t.mockNodes = s.mockNodes ∧ t.hasMockNodes = s.hasMockNodes := by
  unfold connBuilderBranch at h
  split at h
  · rcases Option.map_eq_some'.mp h with ⟨cs, _, rfl⟩
    exact ⟨rfl, rfl, rfl, rfl, rfl⟩
  · cases h
    exact ⟨rfl, rfl, rfl, rfl, rfl⟩

theorem updateNodeConfiguration_length {data : JVal}
    (hrec : recoveredNodes data = none) (nodes : List InternalWorkflowNode) :
    (updateNodeConfiguration nodes data).length = nodes.length := by
  unfold updateNodeConfiguration
  rw [hrec]
  exact List.length_map _ _

theorem nodeConfiguratorBranch_core (s : GenerationState) (st : SSEStepType)
    (status : SSEStatusType) (data : JVal) :
    (nodeConfiguratorBranch s st status data).isComplete = s.isComplete ∧
    (nodeConfiguratorBranch s st status data).hasError = s.hasError ∧
    (nodeConfiguratorBranch s st status data).mockNodes = s.mockNodes ∧
    (nodeConfiguratorBranch s st status data).hasMockNodes = s.hasMockNodes ∧
    ((st = .node_configurator → status = .done → recoveredNodes data = none) →
      (nodeConfiguratorBranch s st status data).nodes.length = s.nodes.length) := by
  unfold nodeConfiguratorBranch
  split
  case isTrue hst =>
    split
    case isTrue hstart =>
      refine ⟨rfl, rfl, rfl, rfl, fun _ => ?_⟩
      simp [updateNodeStatus]
    case isFalse hnstart =>
      split
      case isTrue hdone =>
        dsimp only
        split
        · refine ⟨rfl, rfl, rfl, rfl, fun hrec => ?_⟩
          exact updateNodeConfiguration_length (hrec hst hdone) s.nodes
        · refine ⟨rfl, rfl, rfl, rfl, fun hrec => ?_⟩
          exact updateNodeConfiguration_length (hrec hst hdone) s.nodes
      case isFalse hndone =>
        exact ⟨rfl, rfl, rfl, rfl, fun _ => rfl⟩
  case isFalse hnst =>
    exact ⟨rfl, rfl, rfl, rfl, fun _ => rfl⟩

theorem databaseBranch_core (s : GenerationState) (st : SSEStepType)
    (status : SSEStatusType) (data : JVal) :
    (databaseBranch s st status data).isComplete = s.isComplete ∧
    (databaseBranch s st status data).hasError = s.hasError ∧
    (databaseBranch s st status data).nodes = s.nodes ∧
    (databaseBranch s st status data).mockNodes = s.mockNodes ∧
    (databaseBranch s st status data).hasMockNodes = s.hasMockNodes := by
  unfold databaseBranch
  split <;> exact ⟨rfl, rfl, rfl, rfl, rfl⟩

theorem stepErrorBranch_core (s : GenerationState) (st : SSEStepType)
    (status : SSEStatusType) (data : JVal) (now : Nat) :
    (stepErrorBranch s st status data now).isComplete = s.isComplete ∧
    (s.hasError = true → (stepErrorBranch s st status data now).hasError = true) ∧
    (stepErrorBranch s st status data now).nodes = s.nodes ∧
    (stepErrorBranch s st status data now).mockNodes = s.mockNodes ∧
    (stepErrorBranch s st status data now).hasMockNodes = s.hasMockNodes := by
  unfold stepErrorBranch
  split
  · exact ⟨rfl, fun _ => rfl, rfl, rfl, rfl⟩
  · exact ⟨rfl, fun hh => hh, rfl, rfl, rfl⟩

theorem applySystem_core (s : GenerationState) (ty : SSESystemEventType)
    (status : Option JVal) (now : Nat) :
    (s.isComplete = true → (applySystem s ty status now).isComplete = true) ∧
    (s.hasError = true → (applySystem s ty status now).hasError = true) ∧
    (applySystem s ty status now).nodes = s.nodes ∧
    (applySystem s ty status now).mockNodes = s.mockNodes ∧
    (applySystem s ty status now).hasMockNodes = s.hasMockNodes := by
  cases ty with
  | status =>
    simp only [applySystem]
    split
    · exact ⟨fun _ => rfl, fun hh => hh, rfl, rfl, rfl⟩
    · split
      · exact ⟨fun hh => hh, fun _ => rfl, rfl, rfl, rfl⟩
      · exact ⟨fun hh => hh, fun hh => hh, rfl, rfl, rfl⟩
  | connected => exact ⟨fun hh => hh, fun hh => hh, rfl, rfl, rfl⟩
  | status_change => exact ⟨fun hh => hh, fun hh => hh, rfl, rfl, rfl⟩
  | complete => exact ⟨fun hh => hh, fun hh => hh, rfl, rfl, rfl⟩
  | heartbeat => exact ⟨fun hh => hh, fun hh => hh, rfl, rfl, rfl⟩
  | error => exact ⟨fun hh => hh, fun hh => hh, rfl, rfl, rfl⟩

theorem applyStep_core {s0 t : GenerationState} {st : SSEStepType}
    {status : SSEStatusType} {data : JVal} {now : Nat}
    (h : applyStep s0 st status data now = some t) :
    t.isComplete = s0.isComplete ∧
    (s0.hasError = true → t.hasError = true) ∧
    (mockConsistent s0 → mockConsistent t) ∧
    (¬(st = .node_selector ∧ status = .done ∧ truthyField data ("nodes") = true) →
      (st = .node_configurator → status = .done → recoveredNodes data = none) →
      t.nodes.length = s0.nodes.length) := by
  unfold applyStep at h
  rcases Option.bind_eq_some.mp h with ⟨s2, h2, h'⟩
  rcases Option.bind_eq_some.mp h' with ⟨s3, h3, h''⟩
  rcases Option.map_eq_some'.mp h'' with ⟨s4, h4, rfl⟩
  obtain ⟨a1c, a1e, a1n, a1m, a1h⟩ :=
    archStartBranch_core { s0 with currentStep := some (stepName st) }
      st status data now
  obtain ⟨d2c, d2e, d2n, d2mi⟩ := archDoneBranch_core h2
  obtain ⟨n3c, n3e, n3mi, n3n⟩ := nodeSelectorBranch_core h3
  obtain ⟨c4c, c4e, c4n, c4m, c4h⟩ := connBuilderBranch_core h4
  obtain ⟨k5c, k5e, k5m, k5h, k5len⟩ := nodeConfiguratorBranch_core s4 st status data
  obtain ⟨b6c, b6e, b6n, b6m, b6h⟩ :=
    databaseBranch_core (nodeConfiguratorBranch s4 st status data) st status data
  obtain ⟨e7c, e7e, e7n, e7m, e7h⟩ :=
    stepErrorBranch_core (databaseBranch (nodeConfiguratorBranch s4 st status data)
      st status data) st status data now
  refine ⟨?_, ?_, ?_, ?_⟩
  · exact e7c.trans (b6c.trans (k5c.trans (c4c.trans (n3c.trans (d2c.trans a1c)))))
  · intro h0
    apply e7e
    rw [b6e, k5e, c4e, n3e, d2e, a1e]
    exact h0
  · intro m0
    have m1 : mockConsistent (archStartBranch
        { s0 with currentStep := some (stepName st) } st status data now) := by
      unfold mockConsistent at m0 ⊢
      rw [a1m, a1h]
      exact m0
    have m3 := n3mi (d2mi m1)
    have m4 : mockConsistent s4 := by
      unfold mockConsistent at m3 ⊢
      rw [c4m, c4h]
      exact m3
    unfold mockConsistent at m4 ⊢
    rw [e7m, e7h, b6m, b6h, k5m, k5h]
    exact m4
  · intro hns hnc
    calc (stepErrorBranch (databaseBranch (nodeConfiguratorBranch s4 st status data)
          st status data) st status data now).nodes.length
        = (databaseBranch (nodeConfiguratorBranch s4 st status data)
          st status data).nodes.length := by rw [e7n]
      _ = (nodeConfiguratorBranch s4 st status data).nodes.length := by rw [b6n]
      _ = s4.nodes.length := k5len hnc
      _ = s0.nodes.length := by
          rcases n3n with hsel | hcond
          · rw [c4n, hsel, d2n, a1n]
          · exact absurd hcond hns

theorem reduceEvent_core {sess sess2 : Session} {e : SSEEvent} {now : Nat}
    (h : reduceEvent sess e now = some sess2) :
    (sess.gs.isComplete = true → sess2.gs.isComplete = true) ∧
    (sess.gs.hasError = true → sess2.gs.hasError = true) ∧
    (mockConsistent sess.gs → mockConsistent sess2.gs) ∧
    (selectorReplaces e = false → configuratorRecovers e = false →
      sess2.gs.nodes.length = sess.gs.nodes.length) := by
  unfold reduceEvent at h
  split at h
  · cases h
    exact ⟨fun x => x, fun x => x, fun x => x, fun _ _ => rfl⟩
  · rcases Option.map_eq_some'.mp h with ⟨gs, hgs, rfl⟩
    unfold applyEvent at hgs
    rcases hse : sanitizeEventData e with ⟨st, status, data⟩ | ⟨ty, status⟩
    · rw [hse] at hgs
      obtain ⟨pc, pe, pm, pl⟩ := applyStep_core hgs
      refine ⟨fun x => pc.trans x, pe, pm, ?_⟩
      intro hsel hrec
      have hns : ¬(st = .node_selector ∧ status = .done ∧
          truthyField data ("nodes") = true) := by
        rintro ⟨rfl, rfl, h3⟩
        unfold selectorReplaces at hsel
        rw [hse] at hsel
        simp only at hsel
        exact absurd (h3.symm.trans hsel) (by decide)
      have hnr : st = .node_configurator → status = .done →
          recoveredNodes data = none := by
        rintro rfl rfl
        unfold configuratorRecovers at hrec
        rw [hse] at hrec
        simp only at hrec
        cases hx : recoveredNodes data with
        | none => rfl
        | some v =>
          rw [hx] at hrec
          simp at hrec
      exact pl hns hnr
    · rw [hse] at hgs
      have hgs2 : some (applySystem sess.gs ty status now) = some gs := hgs
      injection hgs2 with hgs3
      obtain ⟨qc, qe, qn, qm, qh⟩ := applySystem_core sess.gs ty status now
      rw [hgs3] at qc qe qn qm qh
      refine ⟨qc, qe, ?_, fun _ _ => by rw [qn]⟩
      intro m0
      unfold mockConsistent at m0 ⊢
      rw [qm, qh]
      exact m0

/-! Claim theorems. -/

/-- C1: a node_configurator done event whose payload has the unknown nodeId
and whose name field is a string-encoded array of two well-formed node
records, one of which embeds a reference from B back to A, reduces to a
state with exactly the two nodes A and B and exactly one connection A to B. -/
theorem claim_C1_corruption_recovery :
    (reduceEvent (resetSession (some ("g"))) c1event 5).map
      (fun ss => (ss.gs.nodes.map (fun n => n.nodeId),
                  ss.gs.connections.map (fun c => (c.source, c.target)))) =
    some ((["A", "B"] : List String), ([("A", "B")] : List (String × String))) := by
  rfl

theorem mapIdx_map_id (l : List InternalWorkflowNode) :
    (l.mapIdx (fun i n => convertToFlowNode n i)).map (fun f => f.id) =
    l.map (fun n => n.nodeId) := by
  rw [List.mapIdx_eq_enum_map, List.map_map]
  have h1 : ((fun f => FlowNode.id f) ∘
      Function.uncurry fun i n => convertToFlowNode n i) =
      (fun p : Nat × InternalWorkflowNode => p.2.nodeId) := rfl
  rw [h1]
  have h2 : (fun p : Nat × InternalWorkflowNode => p.2.nodeId) =
      (fun n : InternalWorkflowNode => n.nodeId) ∘ Prod.snd := rfl
  rw [h2, ← List.map_map, List.enum_map_snd]

/-- C2: for every state, the projector renders the real node list whenever
it is non-empty and the mock list exactly when the real list is empty, and
the projected flow-node ids come from that single selected population, so
the two populations are never rendered simultaneously. -/
theorem claim_C2_projector_mutual_exclusion (s : GenerationState) :
    ((s.nodes ≠ [] ∧ nodesToRender s = s.nodes) ∨
     (s.nodes = [] ∧ nodesToRender s = s.mockNodes)) ∧
    (flowNodesOf s).map (fun f => f.id) =
      (nodesToRender s).map (fun n => n.nodeId) := by
  constructor
  · by_cases hn : s.nodes = []
    · right
      refine ⟨hn, ?_⟩
      unfold nodesToRender
      rw [hn]
      rfl
    · left
      refine ⟨hn, ?_⟩
      unfold nodesToRender
      rw [if_pos (List.length_pos.mpr hn)]
  · exact mapIdx_map_id (nodesToRender s)

/-- C3: once isComplete or hasError is set, reducing any further event keeps
it set; only the explicit reset produces a state with both flags cleared. -/
theorem claim_C3_terminal_stability (sess sess2 : Session) (e : SSEEvent)
    (now : Nat) (g : Option String)
    (h : reduceEvent sess e now = some sess2) :
    (sess.gs.isComplete = true → sess2.gs.isComplete = true) ∧
    (sess.gs.hasError = true → sess2.gs.hasError = true) ∧
    (resetSession g).gs.isComplete = false ∧
    (resetSession g).gs.hasError = false := by
  obtain ⟨hc, he, _, _⟩ := reduceEvent_core h
  exact ⟨hc, he, rfl, rfl⟩

/-- Witness for C3 at a concrete flagged session and a heartbeat frame. -/
def flaggedSession : Session :=
  { gs := { createInitialState none with isComplete := true, hasError := true }
    processed := [] }

theorem claim_C3_witness :
    (flaggedSession.gs.isComplete = true →
      (⟨flaggedSession.gs, [eventKey hbEvent 7]⟩ : Session).gs.isComplete = true) ∧
    (flaggedSession.gs.hasError = true →
      (⟨flaggedSession.gs, [eventKey hbEvent 7]⟩ : Session).gs.hasError = true) ∧
    (resetSession none).gs.isComplete = false ∧
    (resetSession none).gs.hasError = false :=
  claim_C3_terminal_stability flaggedSession
    ⟨flaggedSession.gs, [eventKey hbEvent 7]⟩ hbEvent 7 none (by rfl)

/-- C4: reducing the same event twice under the same coarse identity key
(step-or-type with arrival timestamp) equals reducing it once; the repeat is
discarded without mutating state. -/
theorem claim_C4_duplicate_idempotent (sess sess2 : Session) (e : SSEEvent)
    (now : Nat) (h : reduceEvent sess e now = some sess2) :
    reduceEvent sess2 e now = some sess2 := by
  unfold reduceEvent at h ⊢
  split at h
  case isTrue hc =>
    cases h
    rw [if_pos hc]
  case isFalse hc =>
    rcases Option.map_eq_some'.mp h with ⟨gs, hgs, rfl⟩
    have hmem : ((eventKey e now :: sess.processed).contains (eventKey e now))
        = true := by simp
    rw [if_pos hmem]

def c4after : Session :=
  { gs := createInitialState none, processed := [eventKey hbEvent 0] }

theorem claim_C4_witness : reduceEvent c4after hbEvent 0 = some c4after :=
  claim_C4_duplicate_idempotent (resetSession none) c4after hbEvent 0 (by rfl)

/-- Counterexample to C5 as stated: from the initial session, a
node_selector done event with two nodes followed by a later node_selector
done event with one node is a reachable reduction in which nodes.length
strictly decreases. -/
theorem claim_C5_counterexample :
    ((reduceEvent (resetSession none) nsTwoEvent 0).bind (fun s1 =>
      (reduceEvent s1 nsOneEvent 1).map (fun s2 =>
        (s1.gs.nodes.length, s2.gs.nodes.length,
         decide (s2.gs.nodes.length < s1.gs.nodes.length))))) =
    some (2, 1, true) := by
  rfl

/-- C5 (amended): nodes.length never decreases as a result of reducing any
event, except that a node_selector done event whose sanitized payload has a
truthy nodes field, or a node_configurator done event triggering the
corruption-recovery extraction, replaces the node list wholesale and may
shrink it. -/
theorem claim_C5_monotonic_nodes (sess sess2 : Session) (e : SSEEvent)
    (now : Nat) (h : reduceEvent sess e now = some sess2)
    (h1 : selectorReplaces e = false) (h2 : configuratorRecovers e = false) :
    sess.gs.nodes.length ≤ sess2.gs.nodes.length := by
  have hlen := (reduceEvent_core h).2.2.2 h1 h2
  omega

theorem claim_C5_witness :
    (resetSession none).gs.nodes.length ≤
      (⟨createInitialState none, [eventKey hbEvent 0]⟩ : Session).gs.nodes.length :=
  claim_C5_monotonic_nodes (resetSession none)
    ⟨createInitialState none, [eventKey hbEvent 0]⟩ hbEvent 0
    (by rfl) (by rfl) (by rfl)

/-- C6: at the failing input (a connection_builder done frame with missing
data) the sanitizer returns an empty object without the connections array
the claim promises, and the reducer then crashes on it (modelled as none),
contradicting the normalizer contract the claim states. -/
theorem claim_C6_sanitizer_gap :
    sanitizeEventData cbNullEvent =
      SSEEvent.stepEv .connection_builder .done (.objv []) ∧
    getField (JVal.objv []) ("connections") = none ∧
    applyEvent (createInitialState none) cbNullEvent 0 = none := by
  exact ⟨rfl, rfl, rfl⟩

theorem extractConnStep_inv (nodes : List InternalWorkflowNode)
    (acc : List InternalConnection × List String) (p : String × String)
    (hP : ∀ c ∈ acc.1, (∃ n ∈ nodes, n.nodeId = c.source) ∧ c.source ≠ c.target)
    (hK : acc.2 = acc.1.map (fun c => connKey c.source c.target))
    (hN : acc.2.Nodup) :
    (∀ c ∈ (extractConnStep nodes acc p).1,
      (∃ n ∈ nodes, n.nodeId = c.source) ∧ c.source ≠ c.target) ∧
    (extractConnStep nodes acc p).2 =
      (extractConnStep nodes acc p).1.map (fun c => connKey c.source c.target) ∧
    (extractConnStep nodes acc p).2.Nodup := by
  unfold extractConnStep
  split
  case isTrue hcond =>
    simp only [Bool.and_eq_true] at hcond
    obtain ⟨⟨hsrc, hne⟩, hkey⟩ := hcond
    refine ⟨?_, ?_, ?_⟩
    · intro c hc
      rcases List.mem_append.mp hc with hin | hnew
      · exact hP c hin
      · have hc0 := List.mem_singleton.mp hnew
        subst hc0
        constructor
        · rcases List.any_eq_true.mp hsrc with ⟨n, hn, hbeq⟩
          exact ⟨n, hn, by simpa using hbeq⟩
        · show p.1 ≠ p.2
          simpa using hne
    · rw [List.map_append, ← hK]
      rfl
    · have hk2 : connKey p.1 p.2 ∉ acc.2 := by simpa using hkey
      refine List.Nodup.append hN (List.nodup_singleton _) ?_
      intro a ha hb
      rw [List.mem_singleton.mp hb] at ha
      exact hk2 ha
  case isFalse =>
    exact ⟨hP, hK, hN⟩

theorem extractConnFold_inv (nodes : List InternalWorkflowNode)
    (cands : List (String × String))
    (acc : List InternalConnection × List String)
    (hP : ∀ c ∈ acc.1, (∃ n ∈ nodes, n.nodeId = c.source) ∧ c.source ≠ c.target)
    (hK : acc.2 = acc.1.map (fun c => connKey c.source c.target))
    (hN : acc.2.Nodup) :
    (∀ c ∈ (cands.foldl (extractConnStep nodes) acc).1,
      (∃ n ∈ nodes, n.nodeId = c.source) ∧ c.source ≠ c.target) ∧
    (cands.foldl (extractConnStep nodes) acc).2 =
      (cands.foldl (extractConnStep nodes) acc).1.map
        (fun c => connKey c.source c.target) ∧
    (cands.foldl (extractConnStep nodes) acc).2.Nodup := by
  induction cands generalizing acc with
  | nil => exact ⟨hP, hK, hN⟩
  | cons p ps ih =>
    simp only [List.foldl_cons]
    obtain ⟨hP2, hK2, hN2⟩ := extractConnStep_inv nodes acc p hP hK hN
    exact ih _ hP2 hK2 hN2

/-- C7: every connection emitted by the extraction has a source that is the
nodeId of some node in the list, is never a self reference, and the emitted
list holds no two connections with the same source-target pair. -/
theorem claim_C7_extracted_connections (nodes : List InternalWorkflowNode) :
    (∀ c ∈ extractConnectionsFromNodes nodes,
      (∃ n ∈ nodes, n.nodeId = c.source) ∧ c.source ≠ c.target) ∧
    ((extractConnectionsFromNodes nodes).map
      (fun c => (c.source, c.target))).Nodup := by
  unfold extractConnectionsFromNodes
  obtain ⟨hP, hK, hN⟩ := extractConnFold_inv nodes (refCandidates nodes) ([], [])
    (by intro c hc; cases hc) rfl List.nodup_nil
  refine ⟨hP, ?_⟩
  rw [hK] at hN
  have hmm : ((refCandidates nodes).foldl (extractConnStep nodes) ([], [])).1.map
      (fun c => connKey c.source c.target) =
      ((((refCandidates nodes).foldl (extractConnStep nodes) ([], [])).1.map
        (fun c => (c.source, c.target))).map (fun q => connKey q.1 q.2)) := by
    rw [List.map_map]
    rfl
  rw [hmm] at hN
  exact List.Nodup.of_map _ hN

theorem claim_C7_witness :
    (∃ n ∈ refNodes, n.nodeId =
      ({ source := "A", target := "B", id := "edge_A_B" } : InternalConnection).source) ∧
    ({ source := "A", target := "B", id := "edge_A_B" } : InternalConnection).source ≠
    ({ source := "A", target := "B", id := "edge_A_B" } : InternalConnection).target :=
  (claim_C7_extracted_connections refNodes).1
    { source := "A", target := "B", id := "edge_A_B" } (by decide)

/-- C8: at the failing schedule, the node-count effect does clear the
rendered edges mid-flight (after one edge was rendered), but the suspended
reveal loop is never cancelled and its next resume appends the second edge
of the old connection list against the new node set. -/
theorem claim_C8_stale_reveal :
    (coordRun revealStart (revealTrace.take 2)).edges = [revealConnA] ∧
    (coordRun revealStart (revealTrace.take 3)).edges = [] ∧
    (coordRun revealStart revealTrace).edges = [revealConnB] := by
  exact ⟨rfl, rfl, rfl⟩

/-- C9: a system event whose type is status_change, complete, heartbeat or
error leaves every field of the generation state unchanged; in particular
the error type does not set hasError and appends no chat message. -/
theorem claim_C9_ignored_system_events (sess sess2 : Session)
    (ty : SSESystemEventType) (status : Option JVal) (now : Nat)
    (hty : ty = .status_change ∨ ty = .complete ∨ ty = .heartbeat ∨ ty = .error)
    (h : reduceEvent sess (SSEEvent.systemEv ty status) now = some sess2) :
    sess2.gs = sess.gs := by
  unfold reduceEvent at h
  split at h
  · cases h
    rfl
  · rcases Option.map_eq_some'.mp h with ⟨gs, hgs, rfl⟩
    unfold applyEvent at hgs
    have hgs2 : some (applySystem sess.gs ty status now) = some gs := hgs
    injection hgs2 with hgs3
    show gs = sess.gs
    rw [← hgs3]
    rcases hty with rfl | rfl | rfl | rfl <;> rfl

theorem claim_C9_witness :
    (⟨createInitialState none,
      [eventKey (SSEEvent.systemEv .error none) 3]⟩ : Session).gs =
    (resetSession none).gs :=
  claim_C9_ignored_system_events (resetSession none)
    ⟨createInitialState none, [eventKey (SSEEvent.systemEv .error none) 3]⟩
    .error none 3 (Or.inr (Or.inr (Or.inr rfl))) (by rfl)

/-- C10: the invariant that hasMockNodes holds exactly when the mock list is
non-empty is established by the initial state, preserved by reducing any
event, and established by the mock-node seeding operation. -/
theorem claim_C10_mock_flag_invariant :
    (∀ g, mockConsistent (createInitialState g)) ∧
    (∀ (sess sess2 : Session) (e : SSEEvent) (now : Nat),
      mockConsistent sess.gs → reduceEvent sess e now = some sess2 →
      mockConsistent sess2.gs) ∧
    (∀ (s : GenerationState) (names : List String) (now : Nat),
      mockConsistent (setMockNodesAction s names now)) := by
  refine ⟨fun g => ?_, fun sess sess2 e now hi h => (reduceEvent_core h).2.2.1 hi,
    fun s names now => ?_⟩
  · unfold mockConsistent createInitialState
    simp
  · unfold mockConsistent setMockNodesAction
    simp only [decide_eq_true_eq]
    exact ⟨fun hl => List.length_pos.mp hl, fun hne => List.length_pos.mpr hne⟩

theorem claim_C10_witness :
    mockConsistent ((⟨createInitialState none,
      [eventKey hbEvent 0]⟩ : Session)).gs :=
  claim_C10_mock_flag_invariant.2.1 (resetSession none)
    ⟨createInitialState none, [eventKey hbEvent 0]⟩ hbEvent 0
    (by unfold mockConsistent resetSession createInitialState; simp) (by rfl)
